import Mathlib

/-!
Shallow embedding of `src/opengl-playground/src/Application.cpp` and proofs
about its behaviour.

The program is a single translation unit with four functions:
`ParseShader`, `CompileShader`, `CreateShader` and `main`.  Driver and
windowing calls (OpenGL / GLFW / GLEW) are modelled as an event trace plus
oracles for the values the external layer returns; the pure logic (the
shader-file scanner, the fixed geometry arrays, control flow and exit
codes) is translated directly from the source.
-/

/-- Mirrors the local `enum class ShaderType { NONE = -1, VERTEX = 0, FRAGMENT = 1 }`
inside `ParseShader`.  `NONE` corresponds to the value `-1`. -/
inductive ShaderType where
  | NONE
  | VERTEX
  | FRAGMENT
  deriving DecidableEq

/-- Checks that `p` is an initial segment of `l`. -/
def matchesAt : List Char → List Char → Bool
  | [], _ => true
  | _ :: _, [] => false
  | a :: ps, b :: ls => a == b && matchesAt ps ls

/-- Checks that `p` occurs as a contiguous run inside `l`. -/
def occursIn (p : List Char) : List Char → Bool
  | [] => p.isEmpty
  | b :: ls => matchesAt p (b :: ls) || occursIn p ls

/-- Model of `line.find(tok) != std::string::npos`: `tok` occurs as a
contiguous substring of `line`. -/
def containsTok (line tok : String) : Bool :=
  occursIn tok.toList line.toList

/-- One iteration of the `while (getline(stream, line))` loop of
`ParseShader`.  The state is the current `ShaderType` together with the
accumulated contents of `ss[0]` (vertex) and `ss[1]` (fragment).

If the line contains `"#shader"` the type is switched (vertex tested
first, then fragment; otherwise the type is left alone) and the line is
appended to neither stream.  Otherwise the source executes
`ss[(int)type] << line << '\n'`; when `type` is `NONE` this indexes the
two-element array `ss` at `-1`, an out-of-bounds access with undefined
behaviour, which the embedding represents as `none`. -/
def parseStep (st : ShaderType × String × String) (line : String) :
    Option (ShaderType × String × String) :=
  if containsTok line "#shader" then
    if containsTok line "vertex" then
      some (ShaderType.VERTEX, st.2.1, st.2.2)
    else if containsTok line "fragment" then
      some (ShaderType.FRAGMENT, st.2.1, st.2.2)
    else
      some st
  else
    match st.1 with
    | ShaderType.NONE => none
    | ShaderType.VERTEX => some (ShaderType.VERTEX, st.2.1 ++ line ++ "\n", st.2.2)
    | ShaderType.FRAGMENT => some (ShaderType.FRAGMENT, st.2.1, st.2.2 ++ line ++ "\n")

/-- Folds `parseStep` over the lines read from the stream. -/
def parseLines : List String → ShaderType × String × String →
    Option (ShaderType × String × String)
  | [], st => some st
  | l :: ls, st => (parseStep st l).bind (fun st2 => parseLines ls st2)

/-- Embedding of `ParseShader`.  The file is represented by the list of
lines `getline` yields; the result is the pair
`{ ss[0].str(), ss[1].str() }`, or `none` when the scan runs into the
out-of-bounds `ss[-1]` access. -/
def ParseShader (fileLines : List String) : Option (String × String) :=
  (parseLines fileLines (ShaderType.NONE, "", "")).map (fun st => (st.2.1, st.2.2))

/-- A line that switches the scanner to the vertex target: it contains
`"#shader"` and `"vertex"` (the vertex branch is tested first). -/
def isVertexMarker (l : String) : Bool :=
  containsTok l "#shader" && containsTok l "vertex"

/-- A line that switches the scanner to the fragment target: it contains
`"#shader"` and `"fragment"` but not `"vertex"`. -/
def isFragmentMarker (l : String) : Bool :=
  containsTok l "#shader" && !containsTok l "vertex" && containsTok l "fragment"

/-- Concatenation of a list of lines, each followed by the `'\n'`
terminator that `ss << line << '\n'` appends. -/
def bodyOf : List String → String
  | [] => ""
  | l :: ls => (l ++ "\n") ++ bodyOf ls

/-- The text a section's body contributes to its stream: its lines that do
not carry the `"#shader"` token, each followed by a terminator. -/
def blockOf (b : List String) : String :=
  bodyOf (b.filter (fun l => !containsTok l "#shader"))

/-- Value of the `GL_VERTEX_SHADER` constant (`0x8B31`). -/
def GL_VERTEX_SHADER : Nat := 35633

/-- Value of the `GL_FRAGMENT_SHADER` constant (`0x8B30`). -/
def GL_FRAGMENT_SHADER : Nat := 35632

/-- Value of the `GL_ARRAY_BUFFER` constant (`0x8892`). -/
def GL_ARRAY_BUFFER : Nat := 34962

/-- Value of the `GL_ELEMENT_ARRAY_BUFFER` constant (`0x8893`). -/
def GL_ELEMENT_ARRAY_BUFFER : Nat := 34963

/-- One observable call into the driver / windowing layer or onto the
standard output, in the order the program issues them. -/
inductive Ev where
  | createShader (ty : Nat)
  | shaderSource (id : Nat) (src : String)
  | compileShader (id : Nat)
  | getCompileStatus (id : Nat)
  | getInfoLogLength (id : Nat)
  | allocLog (len : Nat)
  | getShaderInfoLog (id : Nat)
  | reportCompileFailure (stage : String) (log : String)
  | deleteShader (id : Nat)
  | createProgram
  | attachShader (prog sh : Nat)
  | linkProgram (prog : Nat)
  | validateProgram (prog : Nat)
  | useProgram (prog : Nat)
  | makeContextCurrent
  | logError
  | printVersion
  | genBuffers
  | bindBuffer (target : Nat)
  | bufferData (target sizeBytes : Nat)
  | enableVertexAttribArray (idx : Nat)
  | vertexAttribPointer (idx comps stride off : Nat)
  | glClear
  | drawElements (count : Nat)
  | swapBuffers
  | pollEvents
  | deleteProgram (prog : Nat)
  | glfwTerminate
  deriving DecidableEq

/-- Values the driver hands back around one `CompileShader` call: the
handle `glCreateShader` returns, the `GL_COMPILE_STATUS` flag, and the
info-log length and text. -/
structure CompileOracle where
  newId : Nat
  compileOk : Bool
  infoLogLen : Nat
  infoLog : String

/-- Embedding of `CompileShader`: it creates a stage object, submits the
source, compiles, and queries `GL_COMPILE_STATUS`.  On `GL_FALSE` it
queries `GL_INFO_LOG_LENGTH`, `alloca`s a buffer of that length, fetches
the log, prints the stage name and the log, deletes the stage object and
returns `0`; otherwise it returns the stage handle.  The returned pair is
(result, trace of external calls). -/
def CompileShader (o : CompileOracle) (ty : Nat) (source : String) : Nat × List Ev :=
  let pre := [Ev.createShader ty, Ev.shaderSource o.newId source,
    Ev.compileShader o.newId, Ev.getCompileStatus o.newId]
  if o.compileOk = false then
    (0, pre ++ [Ev.getInfoLogLength o.newId, Ev.allocLog o.infoLogLen,
      Ev.getShaderInfoLog o.newId,
      Ev.reportCompileFailure (if ty = GL_VERTEX_SHADER then "vertex" else "fragment") o.infoLog,
      Ev.deleteShader o.newId])
  else
    (o.newId, pre)

/-- Values the driver hands back around one `CreateShader` call: the
program handle from `glCreateProgram` and the oracles for the two
`CompileShader` calls. -/
structure ProgramOracle where
  progId : Nat
  vsOracle : CompileOracle
  fsOracle : CompileOracle

/-- Embedding of `CreateShader`: create a program, compile both stages,
attach both results (whatever they are), link, validate, delete the two
stage objects and return the program handle.  No result is ever compared
against the zero sentinel. -/
def CreateShader (o : ProgramOracle) (vertexShader fragmentShader : String) :
    Nat × List Ev :=
  let program := o.progId
  let cv := CompileShader o.vsOracle GL_VERTEX_SHADER vertexShader
  let cf := CompileShader o.fsOracle GL_FRAGMENT_SHADER fragmentShader
  (program,
    Ev.createProgram :: (cv.2 ++ (cf.2 ++
      [Ev.attachShader program cv.1, Ev.attachShader program cf.1,
       Ev.linkProgram program, Ev.validateProgram program,
       Ev.deleteShader cv.1, Ev.deleteShader cf.1])))

/-- The `float positions[]` array of `main` (4 vertices, 2 components
each).  The coordinates `±0.5` are exact binary floats, so rationals model
them faithfully. -/
def positions : List Rat :=
  [-(1/2), -(1/2), 1/2, -(1/2), 1/2, 1/2, -(1/2), 1/2]

/-- The `unsigned int indices[]` array of `main`. -/
def indices : List Nat := [0, 1, 2, 2, 3, 0]

/-- Size of a C `float` in bytes on every platform the program targets. -/
def sizeofFloat : Nat := 4

/-- Size of a C `unsigned int` in bytes on every platform the program
targets. -/
def sizeofUInt : Nat := 4

/-- The size argument `6 * 2 * sizeof(float)` the source passes to
`glBufferData(GL_ARRAY_BUFFER, ...)`. -/
def vertexBufferUploadBytes : Nat := 6 * 2 * sizeofFloat

/-- The size argument `6 * sizeof(unsigned int)` the source passes to
`glBufferData(GL_ELEMENT_ARRAY_BUFFER, ...)`. -/
def indexBufferUploadBytes : Nat := 6 * sizeofUInt

/-- The buffer-setup calls `main` issues between the version print and
`ParseShader`: generate/bind/fill the vertex buffer, describe attribute 0,
then generate/bind/fill the index buffer. -/
def setupTrace : List Ev :=
  [Ev.genBuffers, Ev.bindBuffer GL_ARRAY_BUFFER,
   Ev.bufferData GL_ARRAY_BUFFER vertexBufferUploadBytes,
   Ev.enableVertexAttribArray 0,
   Ev.vertexAttribPointer 0 2 (sizeofFloat * 2) 0,
   Ev.genBuffers, Ev.bindBuffer GL_ELEMENT_ARRAY_BUFFER,
   Ev.bufferData GL_ELEMENT_ARRAY_BUFFER indexBufferUploadBytes]

/-- One iteration of the render loop, in source order: clear, draw the 6
indices, swap buffers, poll events. -/
def frame : List Ev :=
  [Ev.glClear, Ev.drawElements 6, Ev.swapBuffers, Ev.pollEvents]

/-- Fueled unfolding of `while (!glfwWindowShouldClose(window))`: `close i`
is the close flag read at the top of iteration `i`.  Runs one `frame` per
iteration until the flag is set; `none` when the fuel runs out before the
window closes. -/
def loopAux (close : Nat → Bool) : Nat → Nat → Option (List Ev)
  | 0, i => if close i then some [] else none
  | fuel + 1, i =>
    if close i then some []
    else (loopAux close fuel (i + 1)).map (fun t => frame ++ t)

/-- The calls `main` issues between a successful window creation and the
render loop, apart from shader construction: make the context current, log
`"ERROR"` when `glewInit` does not return `GLEW_OK`, print the GL version,
then run the buffer setup. -/
def mainPre (glewOk : Bool) : List Ev :=
  Ev.makeContextCurrent ::
    ((if glewOk then [] else [Ev.logError]) ++ (Ev.printVersion :: setupTrace))

/-- The external world as `main` observes it: whether `glfwInit` and
`glfwCreateWindow` succeed, whether `glewInit` returns `GLEW_OK`, the
lines of `res/shaders/Basic.shader`, the shader-construction oracles, and
the per-iteration close flag. -/
structure Env where
  glfwInitOk : Bool
  createWindowOk : Bool
  glewOk : Bool
  fileLines : List String
  prog : ProgramOracle
  shouldClose : Nat → Bool

/-- Embedding of `main`.  Returns `none` when the run is not defined in the
model (the `ss[-1]` undefined behaviour inside `ParseShader`, or fuel
exhaustion), otherwise the exit code and the trace of external calls.
`glfwInit` failure returns `-1` at once; window-creation failure calls
`glfwTerminate` and returns `-1`; after the loop the program object is
deleted, `glfwTerminate` runs and the exit code is `0`. -/
def mainRun (env : Env) (fuel : Nat) : Option (Int × List Ev) :=
  if env.glfwInitOk = false then some (-1, [])
  else if env.createWindowOk = false then some (-1, [Ev.glfwTerminate])
  else
    match ParseShader env.fileLines with
    | none => none
    | some src =>
      let cs := CreateShader env.prog src.1 src.2
      match loopAux env.shouldClose fuel 0 with
      | none => none
      | some lt =>
        some (0, mainPre env.glewOk ++ (cs.2 ++ (Ev.useProgram cs.1 ::
          (lt ++ [Ev.deleteProgram cs.1, Ev.glfwTerminate]))))

/-- Recognises the two `glBufferData` upload calls in a trace. -/
def isBufferUpload : Ev → Bool
  | Ev.bufferData _ _ => true
  | _ => false

/-- A compile oracle for a stage that compiles cleanly with handle `id`. -/
def okOracle (id : Nat) : CompileOracle :=
  ⟨id, true, 0, ""⟩

/-- A sample run in which everything succeeds except `glewInit`, the shader
file is well formed, and the window closes before the first frame. -/
def envGlewFail : Env :=
  ⟨true, true, false, ["#shader vertex", "v", "#shader fragment", "f"],
    ⟨1, okOracle 2, okOracle 3⟩, fun _ => true⟩

/-- A sample run in which `glfwInit` fails. -/
def envNoInit : Env :=
  ⟨false, true, true, [], ⟨1, okOracle 2, okOracle 3⟩, fun _ => true⟩

/-- A sample run in which everything succeeds and the window closes before
the first frame. -/
def envAllOk : Env :=
  ⟨true, true, true, ["#shader vertex", "v", "#shader fragment", "f"],
    ⟨1, okOracle 2, okOracle 3⟩, fun _ => true⟩

/-- A compile oracle for a stage whose compilation fails with a short
log. -/
def failOracle : CompileOracle := ⟨5, false, 3, "err"⟩

/-- A program oracle whose vertex stage fails to compile. -/
def failProgOracle : ProgramOracle := ⟨7, failOracle, okOracle 6⟩

theorem parseLines_append (xs ys : List String) (st : ShaderType × String × String) :
    parseLines (xs ++ ys) st = (parseLines xs st).bind (parseLines ys) := by
  induction xs generalizing st with
  | nil => simp [parseLines]
  | cons l ls ih =>
    simp only [List.cons_append, parseLines]
    cases parseStep st l with
    | none => simp
    | some st2 => simp [ih]

theorem parseStep_vertexMarker (st : ShaderType × String × String) (l : String)
    (h : isVertexMarker l = true) :
    parseStep st l = some (ShaderType.VERTEX, st.2.1, st.2.2) := by
  simp only [isVertexMarker, Bool.and_eq_true] at h
  simp [parseStep, h.1, h.2]

theorem parseStep_fragmentMarker (st : ShaderType × String × String) (l : String)
    (h : isFragmentMarker l = true) :
    parseStep st l = some (ShaderType.FRAGMENT, st.2.1, st.2.2) := by
  simp only [isFragmentMarker, Bool.and_eq_true, Bool.not_eq_true'] at h
  simp [parseStep, h.1.1, h.1.2, h.2]

theorem parseLines_vertex_body (b : List String)
    (hb : ∀ l ∈ b, containsTok l "#shader" = true →
      containsTok l "vertex" = false ∧ containsTok l "fragment" = false) :
    ∀ v f, parseLines b (ShaderType.VERTEX, v, f) =
      some (ShaderType.VERTEX, v ++ blockOf b, f) := by
  induction b with
  | nil =>
    intro v f
    simp [parseLines, blockOf, bodyOf, String.append_empty]
  | cons l ls ih =>
    intro v f
    have hls : ∀ x ∈ ls, containsTok x "#shader" = true →
        containsTok x "vertex" = false ∧ containsTok x "fragment" = false :=
      fun x hx => hb x (List.mem_cons_of_mem l hx)
    cases hsh : containsTok l "#shader" with
    | false =>
      simp only [parseLines, parseStep, hsh, Bool.false_eq_true, if_false]
      rw [Option.some_bind]
      rw [ih hls (v ++ l ++ "\n") f]
      have hfil : blockOf (l :: ls) = (l ++ "\n") ++ blockOf ls := by
        simp [blockOf, List.filter, hsh, bodyOf]
      rw [hfil, String.append_assoc, String.append_assoc,
        String.append_assoc l "\n" (blockOf ls)]
    | true =>
      obtain ⟨hv, hf⟩ := hb l (List.mem_cons_self l ls) hsh
      simp only [parseLines, parseStep, hsh, if_true, hv, hf, Bool.false_eq_true, if_false]
      rw [Option.some_bind]
      rw [ih hls v f]
      have hfil : blockOf (l :: ls) = blockOf ls := by
        simp [blockOf, List.filter, hsh]
      rw [hfil]

theorem parseLines_fragment_body (b : List String)
    (hb : ∀ l ∈ b, containsTok l "#shader" = true →
      containsTok l "vertex" = false ∧ containsTok l "fragment" = false) :
    ∀ v f, parseLines b (ShaderType.FRAGMENT, v, f) =
      some (ShaderType.FRAGMENT, v, f ++ blockOf b) := by
  induction b with
  | nil =>
    intro v f
    simp [parseLines, blockOf, bodyOf, String.append_empty]
  | cons l ls ih =>
    intro v f
    have hls : ∀ x ∈ ls, containsTok x "#shader" = true →
        containsTok x "vertex" = false ∧ containsTok x "fragment" = false :=
      fun x hx => hb x (List.mem_cons_of_mem l hx)
    cases hsh : containsTok l "#shader" with
    | false =>
      simp only [parseLines, parseStep, hsh, Bool.false_eq_true, if_false]
      rw [Option.some_bind]
      rw [ih hls v (f ++ l ++ "\n")]
      have hfil : blockOf (l :: ls) = (l ++ "\n") ++ blockOf ls := by
        simp [blockOf, List.filter, hsh, bodyOf]
      rw [hfil, String.append_assoc, String.append_assoc,
        String.append_assoc l "\n" (blockOf ls)]
    | true =>
      obtain ⟨hv, hf⟩ := hb l (List.mem_cons_self l ls) hsh
      simp only [parseLines, parseStep, hsh, if_true, hv, hf, Bool.false_eq_true, if_false]
      rw [Option.some_bind]
      rw [ih hls v f]
      have hfil : blockOf (l :: ls) = blockOf ls := by
        simp [blockOf, List.filter, hsh]
      rw [hfil]

/-- C1: for a file made of exactly one vertex section and one fragment
section, in either order, `ParseShader` returns exactly the two section
bodies: each block is the concatenation of that section's non-marker lines
each followed by a terminator, marker lines land in neither block, and the
attribution depends only on the stage keyword of the marker, not on the
order of the sections in the file. -/
theorem ParseShader_two_sections (vm fm : String) (b1 b2 : List String)
    (hvm : isVertexMarker vm = true) (hfm : isFragmentMarker fm = true)
    (hb1 : ∀ l ∈ b1, containsTok l "#shader" = true →
      containsTok l "vertex" = false ∧ containsTok l "fragment" = false)
    (hb2 : ∀ l ∈ b2, containsTok l "#shader" = true →
      containsTok l "vertex" = false ∧ containsTok l "fragment" = false) :
    ParseShader (vm :: (b1 ++ fm :: b2)) = some (blockOf b1, blockOf b2)
    ∧ ParseShader (fm :: (b2 ++ vm :: b1)) = some (blockOf b1, blockOf b2) := by
  constructor
  · simp only [ParseShader, parseLines, parseStep_vertexMarker _ _ hvm, Option.some_bind]
    rw [parseLines_append, parseLines_vertex_body b1 hb1 "" "", Option.some_bind]
    simp only [parseLines, parseStep_fragmentMarker _ _ hfm, Option.some_bind]
    rw [parseLines_fragment_body b2 hb2 ("" ++ blockOf b1) ""]
    simp [String.empty_append]
  · simp only [ParseShader, parseLines, parseStep_fragmentMarker _ _ hfm, Option.some_bind]
    rw [parseLines_append, parseLines_fragment_body b2 hb2 "" "", Option.some_bind]
    simp only [parseLines, parseStep_vertexMarker _ _ hvm, Option.some_bind]
    rw [parseLines_vertex_body b1 hb1 "" ("" ++ blockOf b2)]
    simp [String.empty_append]

/-- C1 witness: a concrete four-line file, vertex section first. -/
theorem ParseShader_two_sections_witness :
    ParseShader ("#shader vertex" :: (["a"] ++ "#shader fragment" :: ["b"])) =
      some (blockOf ["a"], blockOf ["b"])
    ∧ ParseShader ("#shader fragment" :: (["b"] ++ "#shader vertex" :: ["a"])) =
      some (blockOf ["a"], blockOf ["b"]) :=
  ParseShader_two_sections "#shader vertex" "#shader fragment" ["a"] ["b"]
    (by decide) (by decide) (by decide) (by decide)

/-- C2: the claim says lines before the first marker are silently dropped
and that a marker-free file yields two empty blocks.  In the source such a
line is appended through `ss[(int)ShaderType::NONE]`, i.e. `ss[-1]`, an
out-of-bounds access with undefined behaviour; the embedding therefore
yields `none` on the one-line marker-free file, while only the genuinely
empty file yields two empty blocks. -/
theorem ParseShader_pre_marker_ub :
    ParseShader ["foo"] = none ∧ ParseShader [] = some ("", "") := by decide

/-- C8: a line carrying the marker token together with both the "vertex"
and the "fragment" substrings switches the target to VERTEX, because the
vertex branch is tested first. -/
theorem parseStep_tie_break_vertex (st : ShaderType × String × String) (line : String)
    (h1 : containsTok line "#shader" = true)
    (h2 : containsTok line "vertex" = true)
    (h3 : containsTok line "fragment" = true) :
    parseStep st line = some (ShaderType.VERTEX, st.2.1, st.2.2) := by
  simp [parseStep, h1, h2]

/-- C8 witness: the concrete line `"#shader vertex fragment"`. -/
theorem parseStep_tie_break_vertex_witness :
    parseStep (ShaderType.NONE, "", "") "#shader vertex fragment" =
      some (ShaderType.VERTEX, "", "") :=
  parseStep_tie_break_vertex (ShaderType.NONE, "", "") "#shader vertex fragment"
    (by decide) (by decide) (by decide)

/-- C10: a line carrying the marker token but neither stage keyword leaves
the whole scanner state unchanged, so the line is appended to neither
block and the current target is kept. -/
theorem parseStep_unknown_marker_ignored (st : ShaderType × String × String) (line : String)
    (h1 : containsTok line "#shader" = true)
    (h2 : containsTok line "vertex" = false)
    (h3 : containsTok line "fragment" = false) :
    parseStep st line = some st := by
  simp [parseStep, h1, h2, h3]

/-- C10 witness: the concrete line `"#shader geometry"` in the VERTEX
state with both streams nonempty. -/
theorem parseStep_unknown_marker_ignored_witness :
    parseStep (ShaderType.VERTEX, "a\n", "b\n") "#shader geometry" =
      some (ShaderType.VERTEX, "a\n", "b\n") :=
  parseStep_unknown_marker_ignored (ShaderType.VERTEX, "a\n", "b\n") "#shader geometry"
    (by decide) (by decide) (by decide)

/-- C3: the source hands `glBufferData(GL_ARRAY_BUFFER, ...)` the size
`6 * 2 * sizeof(float)` = 48 bytes, but `positions` holds only
4 vertices * 2 floats = 8 floats = 32 bytes, so the upload reads 4 floats
past the end of the array; the claim's stated size (8 floats) and its
in-bounds guarantee fail.  The index upload does pass exactly
`6 * sizeof(unsigned int)` for the 6-element array. -/
theorem vertex_upload_size_mismatch :
    vertexBufferUploadBytes = 48
    ∧ positions.length * sizeofFloat = 32
    ∧ positions.length < vertexBufferUploadBytes / sizeofFloat
    ∧ indexBufferUploadBytes = indices.length * sizeofUInt
    ∧ Ev.bufferData GL_ARRAY_BUFFER vertexBufferUploadBytes ∈ setupTrace := by
  decide

theorem loopAux_no_upload (close : Nat → Bool) :
    ∀ fuel i tr, loopAux close fuel i = some tr →
      tr.all (fun e => !isBufferUpload e) = true := by
  intro fuel
  induction fuel with
  | zero =>
    intro i tr h
    simp only [loopAux] at h
    by_cases hc : close i
    · simp [hc] at h
      subst h
      rfl
    · simp [hc] at h
  | succ f ih =>
    intro i tr h
    simp only [loopAux] at h
    by_cases hc : close i
    · simp [hc] at h
      subst h
      rfl
    · simp only [hc, Bool.false_eq_true, if_false, Option.map_eq_some'] at h
      obtain ⟨t, ht, rfl⟩ := h
      rw [List.all_append, ih (i + 1) t ht, Bool.and_true]
      decide

/-- C9: every element of the fixed index array is below 4, the number of
uploaded vertices (`positions` has 8 floats, 2 per vertex), the single
draw call of each frame covers exactly `indices.length` indices, and no
iteration of the render loop performs a buffer upload, so the invariant
holds on every frame. -/
theorem indices_in_bounds_invariant :
    indices.all (fun i => decide (i < positions.length / 2)) = true
    ∧ positions.length / 2 = 4
    ∧ Ev.drawElements indices.length ∈ frame
    ∧ (∀ close fuel tr, loopAux close fuel 0 = some tr →
        tr.all (fun e => !isBufferUpload e) = true) := by
  refine ⟨by decide, by decide, by decide, ?_⟩
  intro close fuel tr h
  exact loopAux_no_upload close fuel 0 tr h

/-- C9 witness: a one-frame run of the loop contains no buffer upload. -/
theorem indices_in_bounds_invariant_witness :
    (frame ++ []).all (fun e => !isBufferUpload e) = true :=
  indices_in_bounds_invariant.2.2.2 (fun i => decide (1 ≤ i)) 1 (frame ++ []) rfl

/-- C5: `CompileShader` returns 0 exactly when the driver reports compile
failure; in that case it queries `GL_INFO_LOG_LENGTH` before allocating
the log buffer, fetches the log, reports the stage name and the log text,
and deletes the stage object.  On success it returns the handle from
`glCreateShader` unchanged (nonzero) and issues no diagnostic and no
delete. -/
theorem CompileShader_failure_contract (o : CompileOracle) (ty : Nat) (src : String)
    (h : o.newId ≠ 0) :
    ((CompileShader o ty src).1 = 0 ↔ o.compileOk = false)
    ∧ (o.compileOk = false →
        (CompileShader o ty src).2 =
          [Ev.createShader ty, Ev.shaderSource o.newId src, Ev.compileShader o.newId,
           Ev.getCompileStatus o.newId, Ev.getInfoLogLength o.newId,
           Ev.allocLog o.infoLogLen, Ev.getShaderInfoLog o.newId,
           Ev.reportCompileFailure
             (if ty = GL_VERTEX_SHADER then "vertex" else "fragment") o.infoLog,
           Ev.deleteShader o.newId])
    ∧ (o.compileOk = true →
        (CompileShader o ty src).1 = o.newId
        ∧ (CompileShader o ty src).2 =
          [Ev.createShader ty, Ev.shaderSource o.newId src, Ev.compileShader o.newId,
           Ev.getCompileStatus o.newId]) := by
  cases hc : o.compileOk with
  | false => simp [CompileShader, hc]
  | true => simp [CompileShader, hc, h]

/-- C5 witness: a failing compile of a vertex stage yields the zero
sentinel. -/
theorem CompileShader_failure_contract_witness :
    (CompileShader failOracle GL_VERTEX_SHADER "s").1 = 0 :=
  (CompileShader_failure_contract failOracle GL_VERTEX_SHADER "s" (by decide)).1.mpr rfl

/-- C6: `CreateShader` behaves the same whatever the compile results: it
creates a program, compiles both stages, attaches both returned handles
(the zero sentinel included), links, validates, deletes both stage
objects and returns the program handle, never comparing anything against
zero. -/
theorem CreateShader_ignores_compile_failure (o : ProgramOracle) (v f : String) :
    (CreateShader o v f).1 = o.progId
    ∧ (CreateShader o v f).2 =
        Ev.createProgram :: ((CompileShader o.vsOracle GL_VERTEX_SHADER v).2 ++
          ((CompileShader o.fsOracle GL_FRAGMENT_SHADER f).2 ++
           [Ev.attachShader o.progId (CompileShader o.vsOracle GL_VERTEX_SHADER v).1,
            Ev.attachShader o.progId (CompileShader o.fsOracle GL_FRAGMENT_SHADER f).1,
            Ev.linkProgram o.progId, Ev.validateProgram o.progId,
            Ev.deleteShader (CompileShader o.vsOracle GL_VERTEX_SHADER v).1,
            Ev.deleteShader (CompileShader o.fsOracle GL_FRAGMENT_SHADER f).1]))
    ∧ (o.vsOracle.compileOk = false →
        Ev.attachShader o.progId 0 ∈ (CreateShader o v f).2) := by
  refine ⟨rfl, rfl, ?_⟩
  intro hvf
  have h0 : (CompileShader o.vsOracle GL_VERTEX_SHADER v).1 = 0 := by
    simp [CompileShader, hvf]
  simp [CreateShader, List.mem_append, h0]

/-- C6 witness: with a failed vertex stage the zero handle is still
attached to the program. -/
theorem CreateShader_ignores_compile_failure_witness :
    Ev.attachShader 7 0 ∈ (CreateShader failProgOracle "" "").2 :=
  (CreateShader_ignores_compile_failure failProgOracle "" "").2.2 rfl

/-- C4 counterexample: a run in which `glewInit` fails but everything else
succeeds still exits with code `0`, because the source only prints
`"ERROR"` and keeps going. -/
theorem mainRun_glew_failure_exit_zero :
    envGlewFail.glewOk = false ∧ (mainRun envGlewFail 0).map Prod.fst = some 0 :=
  ⟨rfl, rfl⟩

/-- C4 amended: `main` returns `-1` exactly when `glfwInit` fails or
window creation fails (terminating GLFW first in the latter case), and
every run that completes returns `0` exactly when both succeeded; a
`glewInit` failure is only logged and never changes the exit code. -/
theorem mainRun_exit_codes (env : Env) (fuel : Nat) :
    (env.glfwInitOk = false → mainRun env fuel = some (-1, []))
    ∧ (env.glfwInitOk = true → env.createWindowOk = false →
        mainRun env fuel = some (-1, [Ev.glfwTerminate]))
    ∧ (∀ c t, mainRun env fuel = some (c, t) →
        (c = 0 ↔ env.glfwInitOk = true ∧ env.createWindowOk = true)) := by
  refine ⟨?_, ?_, ?_⟩
  · intro h
    simp [mainRun, h]
  · intro h1 h2
    simp [mainRun, h1, h2]
  · intro c t h
    cases h1 : env.glfwInitOk with
    | false =>
      simp [mainRun, h1] at h
      obtain ⟨hc, -⟩ := h
      simp [← hc]
    | true =>
      cases h2 : env.createWindowOk with
      | false =>
        simp [mainRun, h1, h2] at h
        obtain ⟨hc, -⟩ := h
        simp [← hc]
      | true =>
        simp [mainRun, h1, h2] at h
        cases hp : ParseShader env.fileLines with
        | none =>
          rw [hp] at h
          simp at h
        | some src =>
          rw [hp] at h
          cases hl : loopAux env.shouldClose fuel 0 with
          | none =>
            rw [hl] at h
            simp at h
          | some lt =>
            rw [hl] at h
            simp only [Option.some.injEq, Prod.mk.injEq] at h
            obtain ⟨hc, -⟩ := h
            simp [← hc]

/-- C4 witness: a failing `glfwInit` makes `main` return `-1` at once. -/
theorem mainRun_exit_codes_witness :
    mainRun envNoInit 0 = some (-1, []) :=
  (mainRun_exit_codes envNoInit 0).1 rfl

theorem loopAux_frames (close : Nat → Bool) :
    ∀ n i fuel, (∀ j, j < n → close (i + j) = false) → close (i + n) = true →
      n ≤ fuel → loopAux close fuel i = some (List.flatten (List.replicate n frame)) := by
  intro n
  induction n with
  | zero =>
    intro i fuel h0 hc hf
    have hci : close i = true := by simpa using hc
    cases fuel with
    | zero => simp [loopAux, hci]
    | succ f => simp [loopAux, hci]
  | succ n ih =>
    intro i fuel h0 hc hf
    have hci : close i = false := by simpa using h0 0 (Nat.succ_pos n)
    cases fuel with
    | zero => exact absurd hf (by omega)
    | succ f =>
      have hc2 : close (i + 1 + n) = true := by
        rw [show i + 1 + n = i + (n + 1) by omega]
        exact hc
      have h02 : ∀ j, j < n → close (i + 1 + j) = false := by
        intro j hj
        rw [show i + 1 + j = i + (j + 1) by omega]
        exact h0 (j + 1) (by omega)
      have hrec := ih (i + 1) f h02 hc2 (Nat.le_of_succ_le_succ hf)
      simp [loopAux, hci, hrec, List.replicate_succ]

/-- C7: with a working window, each render-loop iteration is exactly the
frame [clear, draw of 6 indices, swap, poll] in that order; the loop runs
exactly as many iterations as the close flag allows, and once the close
request is reported no further frame runs, the program object is deleted
once, GLFW is terminated, and the exit code is 0. -/
theorem mainRun_render_loop (env : Env) (src : String × String) (n fuel : Nat)
    (hg : env.glfwInitOk = true) (hw : env.createWindowOk = true)
    (hp : ParseShader env.fileLines = some src)
    (hrun : ∀ j, j < n → env.shouldClose j = false)
    (hclose : env.shouldClose n = true)
    (hfuel : n ≤ fuel) :
    mainRun env fuel = some (0, mainPre env.glewOk ++
      ((CreateShader env.prog src.1 src.2).2 ++ (Ev.useProgram env.prog.progId ::
        (List.flatten (List.replicate n frame) ++
          [Ev.deleteProgram env.prog.progId, Ev.glfwTerminate])))) := by
  have hl : loopAux env.shouldClose fuel 0 =
      some (List.flatten (List.replicate n frame)) := by
    refine loopAux_frames env.shouldClose n 0 fuel ?_ ?_ hfuel
    · intro j hj
      simpa using hrun j hj
    · simpa using hclose
  simp [mainRun, hg, hw, hp, hl]
  rfl

/-- C7 witness: a run whose window closes before the first frame executes
zero frames, deletes the program once and exits 0. -/
theorem mainRun_render_loop_witness :
    mainRun envAllOk 0 = some (0, mainPre true ++
      ((CreateShader envAllOk.prog "v\n" "f\n").2 ++ (Ev.useProgram 1 ::
        (List.flatten (List.replicate 0 frame) ++
          [Ev.deleteProgram 1, Ev.glfwTerminate])))) :=
  mainRun_render_loop envAllOk ("v\n", "f\n") 0 0 rfl rfl rfl
    (fun j hj => absurd hj (Nat.not_lt_zero j)) rfl (Nat.le_refl 0)
